import Mathlib

/-!
Shallow embedding of `src/c_src/gpio_port2.c` (erlang_ale GPIO port program).

The embedding follows the C source function by function:

* `Gpio` mirrors `struct gpio` (state, fd, pin_number).
* `Env` is the oracle for the operating-system collaborators: the outcome of
  each sysfs access/write, the descriptor returned by `open` on the value
  file, and the outcome and content of `pread`/`pwrite` on it.
* Every GPIO operation also returns the list of physical file operations it
  attempted (`FileOp`), so that "no physical file access" is expressible.
* `erlcmd_decode` is the framing part of `erlcmd_dispatch` (lines 281-291 of
  the C file), `erlcmd_dispatch_msg` is its command part (lines 293-384),
  and `erlcmd_dispatch` composes them; `erlcmd_send_frame` is the frame
  layout produced by `erlcmd_send`.
* `poll_wait_set` is the wait set handed to `poll` by `main` (lines 437-448):
  the first `poll_nfds` entries of the two-element `fdset`.

C truthiness is kept faithfully: `if (gpio_open(...))` in the C source takes
the success branch for any nonzero return, including the failure code -1;
the embedding tests `≠ 0` in the same places.
-/

namespace GpioPort

/-- The four states of `enum gpio_state`. -/
inductive GpioState
  | closed
  | output
  | input
  | inputWithInterrupts
deriving DecidableEq, Repr

/-- Mirror of `struct gpio`: state, value-file descriptor, pin number. -/
structure Gpio where
  state : GpioState
  fd : Int
  pin_number : Int
deriving DecidableEq, Repr

/-- `gpio_init`: the freshly initialised pin record (Closed, fd -1, pin -1). -/
def gpio_init_pin : Gpio := Gpio.mk GpioState.closed (-1) (-1)

/-- One physical file operation attempted by the program. -/
inductive FileOp
  | accessCheck (pin : Int)
  | exportWrite (pin : Int)
  | unexportWrite (pin : Int)
  | directionWrite (pin : Int) (dirstr : String)
  | edgeWrite (pin : Int) (mode : String)
  | valueOpen (pin : Int)
  | closeFd (fd : Int)
  | valuePwrite
  | valuePread
deriving DecidableEq, Repr

/-- Oracle for the operating-system collaborators of the program. -/
structure Env where
  /-- `access("/sys/class/gpio/gpioN/direction", F_OK) == 0` -/
  directionExists : Bool
  /-- the `sysfs_write_file("/sys/class/gpio/export", ...)` call succeeds -/
  exportWriteOk : Bool
  /-- the `sysfs_write_file(".../direction", ...)` call succeeds -/
  directionWriteOk : Bool
  /-- the `sysfs_write_file(".../edge", ...)` call succeeds -/
  edgeWriteOk : Bool
  /-- descriptor returned by `open` on the value file (-1 on failure) -/
  valueFd : Int
  /-- `pwrite` on the value file writes the full byte -/
  pwriteFull : Bool
  /-- `pread` on the value file reads the full byte -/
  preadFull : Bool
  /-- the byte read from the value file is the character 1 -/
  pinValue : Bool
deriving DecidableEq, Repr

/-- An environment in which every filesystem operation succeeds. -/
def env_all_ok : Env := Env.mk true true true true 3 true true true

/-- An environment in which the pin is not yet exported and the export
write fails (everything else succeeds). -/
def env_export_fail : Env := Env.mk false false true true 3 true true true

/-- An environment in which the direction-configuration write fails
(everything else succeeds). -/
def env_direction_fail : Env := Env.mk true true false true 3 true true true

/-- `gpio_release` (C lines 137-154): no-op success when Closed, otherwise
close the value fd, unexport the pin, and reset to the initial record. -/
def gpio_release (pin : Gpio) : Int × Gpio × List FileOp :=
  if pin.state = GpioState.closed then
    (1, pin, [])
  else
    (1, gpio_init_pin, [FileOp.closeFd pin.fd, FileOp.unexportWrite pin.pin_number])

/-- Tail of `gpio_open` after the direction string matched (C lines 118-127):
write the direction file; on failure return 1 with the state already mutated
but fd and pin number untouched; on success record the pin number and open
the value file. -/
def gpio_open_dir (env : Env) (pin : Gpio) (pin_number : Int) (dirstr : String)
    (ops : List FileOp) : Int × Gpio × List FileOp :=
  if env.directionWriteOk then
    (1, Gpio.mk pin.state env.valueFd pin_number,
      ops ++ [FileOp.directionWrite pin_number dirstr, FileOp.valueOpen pin_number])
  else
    (1, pin, ops ++ [FileOp.directionWrite pin_number dirstr])

/-- Middle of `gpio_open` after the export step (C lines 108-116): examine the
direction string; an unrecognised string returns 1 immediately. -/
def gpio_open_after_export (env : Env) (pin : Gpio) (pin_number : Int) (dir : String)
    (ops : List FileOp) : Int × Gpio × List FileOp :=
  if dir = "input" then
    gpio_open_dir env (Gpio.mk GpioState.input pin.fd pin.pin_number) pin_number "in" ops
  else if dir = "output" then
    gpio_open_dir env (Gpio.mk GpioState.output pin.fd pin.pin_number) pin_number "out" ops
  else
    (1, pin, ops)

/-- Export step of `gpio_open` (C lines 97-106): check whether the per-pin
direction file exists; if not, write the pin number to the export file and
return -1 when that write fails. -/
def gpio_open_released (env : Env) (pin : Gpio) (pin_number : Int) (dir : String)
    (relOps : List FileOp) : Int × Gpio × List FileOp :=
  if env.directionExists then
    gpio_open_after_export env pin pin_number dir
      (relOps ++ [FileOp.accessCheck pin_number])
  else if env.exportWriteOk then
    gpio_open_after_export env pin pin_number dir
      (relOps ++ [FileOp.accessCheck pin_number, FileOp.exportWrite pin_number])
  else
    (-1, pin, relOps ++ [FileOp.accessCheck pin_number, FileOp.exportWrite pin_number])

/-- `gpio_open` (C lines 91-128): release the current pin first when not
Closed, then export, then examine the direction. -/
def gpio_open (env : Env) (pin : Gpio) (pin_number : Int) (dir : String) :
    Int × Gpio × List FileOp :=
  if pin.state = GpioState.closed then
    gpio_open_released env pin pin_number dir []
  else
    gpio_open_released env (gpio_release pin).2.1 pin_number dir (gpio_release pin).2.2

/-- Result of a C function that may `err`-terminate the process. -/
inductive Outcome (α : Type)
  | ok (val : α)
  | fatal (msg : String)
deriving DecidableEq, Repr

/-- `gpio_write` (C lines 164-175): -1 without any file access unless the
state is Output; otherwise `pwrite`, fatal on a short write. -/
def gpio_write (env : Env) (pin : Gpio) (val : Int) :
    Outcome (Int × Gpio) × List FileOp :=
  if pin.state ≠ GpioState.output then
    (Outcome.ok (-1, pin), [])
  else if env.pwriteFull then
    (Outcome.ok (1, pin), [FileOp.valuePwrite])
  else
    (Outcome.fatal "pwrite", [FileOp.valuePwrite])

/-- `gpio_read` (C lines 184-195): -1 without any file access when Closed;
otherwise `pread`, fatal on a short read, else the pin value as 0 or 1. -/
def gpio_read (env : Env) (pin : Gpio) : Outcome (Int × Gpio) × List FileOp :=
  if pin.state = GpioState.closed then
    (Outcome.ok (-1, pin), [])
  else if env.preadFull then
    (Outcome.ok ((if env.pinValue then 1 else 0), pin), [FileOp.valuePread])
  else
    (Outcome.fatal "pread", [FileOp.valuePread])

/-- `gpio_set_int` (C lines 209-218): write the mode to the per-pin edge file
(no state precondition is checked); -1 when the write fails, otherwise
transition to InputWithInterrupts. -/
def gpio_set_int (env : Env) (pin : Gpio) (mode : String) : Int × Gpio × List FileOp :=
  if env.edgeWriteOk then
    (1, Gpio.mk GpioState.inputWithInterrupts pin.fd pin.pin_number,
      [FileOp.edgeWrite pin.pin_number mode])
  else
    (-1, pin, [FileOp.edgeWrite pin.pin_number mode])

/-- Argument of a call operation as decoded from the term. -/
inductive CallArg
  | intArg (i : Int)
  | atomArg (s : String)
deriving DecidableEq, Repr

/-- `ERL_INT_VALUE` of a call argument. -/
def CallArg.asInt : CallArg → Int
  | CallArg.intArg i => i
  | CallArg.atomArg _ => 0

/-- `ERL_ATOM_PTR` of a call argument. -/
def CallArg.asAtom : CallArg → String
  | CallArg.intArg _ => ""
  | CallArg.atomArg s => s

/-- A well-formed decoded command term, as the dispatcher destructures it. -/
inductive Msg
  | init (pin_number : Int) (dir : String)
  | cast (cmd : String)
  | call (ref : Nat) (fn : String) (arg : CallArg)
deriving DecidableEq, Repr

/-- Inner result placed inside a `{port_reply, Ref, Resp}` envelope. -/
inductive InnerReply
  | okAtom
  | errorTuple (reason : String)
  | intVal (v : Int)
deriving DecidableEq, Repr

/-- A reply term sent back over the protocol stream.  `portReply ref none`
is the reply built when the dispatcher's `resp` variable is still NULL. -/
inductive Reply
  | okAtom
  | errorTuple (reason : String)
  | portReply (ref : Nat) (inner : Option InnerReply)
deriving DecidableEq, Repr

/-- Command part of `erlcmd_dispatch` (C lines 293-384), on an already
decoded message: produces the replies sent, the new pin record, and the
physical file operations attempted, or a fatal termination. -/
def erlcmd_dispatch_msg (env : Env) (m : Msg) (pin : Gpio) :
    Outcome (List Reply × Gpio × List FileOp) :=
  match m with
  | Msg.init pin_number dir =>
      (fun r =>
        Outcome.ok
          ([if r.1 ≠ 0 then Reply.okAtom else Reply.errorTuple "gpio_init_fail"],
            r.2.1, r.2.2))
        (gpio_open env pin pin_number dir)
  | Msg.cast cmd =>
      if cmd = "release" then
        (fun r => Outcome.ok ([], r.2.1, r.2.2)) (gpio_release pin)
      else
        Outcome.fatal "cast: bad command"
  | Msg.call ref fn arg =>
      if fn = "write" then
        match gpio_write env pin arg.asInt with
        | (Outcome.fatal s, _) => Outcome.fatal s
        | (Outcome.ok (ret, pin'), ops) =>
            Outcome.ok
              ([Reply.portReply ref
                  (some (if ret ≠ 0 then InnerReply.okAtom
                         else InnerReply.errorTuple "gpio_write_failed"))],
                pin', ops)
      else if fn = "read" then
        match gpio_read env pin with
        | (Outcome.fatal s, _) => Outcome.fatal s
        | (Outcome.ok (value, pin'), ops) =>
            Outcome.ok
              ([Reply.portReply ref
                  (some (if value ≠ -1 then InnerReply.intVal value
                         else InnerReply.errorTuple "gpio_read_failed"))],
                pin', ops)
      else if fn = "set_int" then
        (fun r =>
          Outcome.ok
            ([Reply.portReply ref
                (some (if r.1 ≠ 0 then InnerReply.okAtom
                       else InnerReply.errorTuple "gpio_set_int_failed"))],
              r.2.1, r.2.2))
          (gpio_set_int env pin arg.asAtom)
      else
        Outcome.ok ([Reply.portReply ref none], pin, [])

/-- `BUF_SIZE` from the C file. -/
def BUF_SIZE : Nat := 1024

/-- The 16-bit big-endian length declared by the first two buffered bytes
(`ntohs` of the copied prefix). -/
def declared_len (buffer : List Nat) : Nat :=
  buffer.headD 0 * 256 + (buffer.drop 1).headD 0

/-- Result of the framing part of `erlcmd_dispatch`. -/
inductive DecodeResult
  | incomplete
  | message (payload : List Nat) (consumed : Nat)
  | fatal (msg : String)
deriving DecidableEq, Repr

/-- Framing part of `erlcmd_dispatch` (C lines 281-291 and the final return):
the buffer list holds exactly the `handler->index` buffered bytes.  The
comparison in the third branch is the one the C source performs:
`msglen + sizeof(uint16_t) < handler->index` yields `return 0`. -/
def erlcmd_decode (buffer : List Nat) : DecodeResult :=
  if buffer.length < 2 then
    DecodeResult.incomplete
  else if BUF_SIZE < declared_len buffer + 2 then
    DecodeResult.fatal "Message too long"
  else if declared_len buffer + 2 < buffer.length then
    DecodeResult.incomplete
  else
    DecodeResult.message ((buffer.drop 2).take (declared_len buffer))
      (declared_len buffer + 2)

/-- Frame layout produced by `erlcmd_send` (C lines 249-260): the payload
prefixed with its length as two big-endian bytes. -/
def erlcmd_send_frame (payload : List Nat) : List Nat :=
  payload.length / 256 :: payload.length % 256 :: payload

/-- Result of one `erlcmd_dispatch` call on the raw buffer. -/
inductive DispatchResult
  | incomplete
  | handled (replies : List Reply) (pin : Gpio) (ops : List FileOp) (consumed : Nat)
  | fatal (msg : String)
deriving DecidableEq, Repr

/-- Full `erlcmd_dispatch`: framing, then `erl_decode` of the payload
(abstracted as `parse`, fatal when it fails), then the command part. -/
def erlcmd_dispatch (env : Env) (parse : List Nat → Option Msg)
    (buffer : List Nat) (pin : Gpio) : DispatchResult :=
  match erlcmd_decode buffer with
  | DecodeResult.incomplete => DispatchResult.incomplete
  | DecodeResult.fatal s => DispatchResult.fatal s
  | DecodeResult.message payload consumed =>
      match parse payload with
      | none => DispatchResult.fatal "erl_decode"
      | some m =>
          match erlcmd_dispatch_msg env m pin with
          | Outcome.fatal s => DispatchResult.fatal s
          | Outcome.ok (replies, pin', ops) =>
              DispatchResult.handled replies pin' ops consumed

/-- The two poll events used by `main`. -/
inductive PollEvent
  | pollin
  | pollpri
deriving DecidableEq, Repr

/-- The `fdset` array built at the top of every `main` loop iteration:
stdin watched for POLLIN, the pin's value fd watched for POLLPRI. -/
def poll_fdset (pin : Gpio) : List (Int × PollEvent) :=
  [(0, PollEvent.pollin), (pin.fd, PollEvent.pollpri)]

/-- The `nfds` argument of the `poll` call (C line 448). -/
def poll_nfds (pin : Gpio) : Nat :=
  if pin.state = GpioState.inputWithInterrupts then 2 else 1

/-- The wait set actually handed to `poll`: the first `nfds` fdset entries. -/
def poll_wait_set (pin : Gpio) : List (Int × PollEvent) :=
  (poll_fdset pin).take (poll_nfds pin)

end GpioPort

namespace GpioPort

/-- C1: the frame-completeness comparison in `erlcmd_dispatch` is inverted.
At the buffered bytes [0, 1, 42, 99] — one complete frame declaring payload
length 1 followed by two extra bytes — the code returns Incomplete instead of
dispatching, and at [0, 5, 1] — a header declaring payload length 5 with only
one payload byte buffered — the code dispatches a truncated payload with
consumed length 7 instead of returning Incomplete. -/
theorem C1_frame_decode_at_failing_inputs :
    erlcmd_decode [0, 1, 42, 99] = DecodeResult.incomplete ∧
    erlcmd_decode [0, 5, 1] = DecodeResult.message [1] 7 := by
  exact ⟨rfl, rfl⟩

/-- C2: the Init reply contract fails on the code.  When the export write
fails, `gpio_open` returns -1, yet the dispatcher's truthiness test
`if (gpio_open(...))` treats -1 as success and replies ok; when the
direction-configuration write fails, `gpio_open` itself returns the success
code 1 and the dispatcher again replies ok.  The `{error, gpio_init_fail}`
branch is unreachable. -/
theorem C2_init_reply_at_failing_inputs :
    erlcmd_dispatch_msg env_export_fail (Msg.init 4 "input") gpio_init_pin =
      Outcome.ok ([Reply.okAtom], gpio_init_pin,
        [FileOp.accessCheck 4, FileOp.exportWrite 4]) ∧
    erlcmd_dispatch_msg env_direction_fail (Msg.init 4 "input") gpio_init_pin =
      Outcome.ok ([Reply.okAtom], Gpio.mk GpioState.input (-1) (-1),
        [FileOp.accessCheck 4, FileOp.directionWrite 4 "in"]) := by
  exact ⟨rfl, rfl⟩

/-- C3: closed-state rejection fails on the code.  A write call in the Closed
state gets the reply `{port_reply, 0, ok}` (the -1 failure return of
`gpio_write` is truthy to the dispatcher) instead of an error, and a set_int
call in the Closed state attempts a physical edge-file write (on the bogus
path of pin -1) and also gets the reply ok. -/
theorem C3_closed_rejection_at_failing_inputs :
    erlcmd_dispatch_msg env_all_ok (Msg.call 0 "write" (CallArg.intArg 1)) gpio_init_pin =
      Outcome.ok ([Reply.portReply 0 (some InnerReply.okAtom)], gpio_init_pin, []) ∧
    erlcmd_dispatch_msg env_all_ok (Msg.call 0 "set_int" (CallArg.atomArg "rising"))
        gpio_init_pin =
      Outcome.ok ([Reply.portReply 0 (some InnerReply.okAtom)],
        Gpio.mk GpioState.inputWithInterrupts (-1) (-1),
        [FileOp.edgeWrite (-1) "rising"]) := by
  exact ⟨rfl, rfl⟩

/-- C4 counterexample: `gpio_set_int` succeeds in the Output state.  With the
edge write succeeding, a pin in state Output (fd 3, pin 4) is transitioned to
InputWithInterrupts and the call returns the success code 1, contradicting
the claim that set_interrupt fails in Output. -/
theorem C4_set_int_output_counterexample :
    gpio_set_int env_all_ok (Gpio.mk GpioState.output 3 4) "rising" =
      (1, Gpio.mk GpioState.inputWithInterrupts 3 4, [FileOp.edgeWrite 4 "rising"]) := by
  exact rfl

/-- C4 amended: `gpio_set_int` checks no state precondition.  In every state
(whatever the pin record holds) it attempts exactly the edge-file write, its
return value is 1 exactly when that write succeeds, and on success the pin
transitions to InputWithInterrupts with fd and pin number unchanged. -/
theorem C4_set_int_amended (env : Env) (pin : Gpio) (mode : String) :
    (gpio_set_int env pin mode).2.2 = [FileOp.edgeWrite pin.pin_number mode] ∧
    ((gpio_set_int env pin mode).1 = 1 ↔ env.edgeWriteOk = true) ∧
    ((gpio_set_int env pin mode).1 = 1 →
      (gpio_set_int env pin mode).2.1 =
        Gpio.mk GpioState.inputWithInterrupts pin.fd pin.pin_number) := by
  unfold gpio_set_int
  cases h : env.edgeWriteOk <;> simp [h]

/-- C4 amended, witness: the amended theorem applied in the Input state with
a succeeding edge write, discharging the success hypothesis concretely. -/
theorem C4_set_int_amended_witness :
    (gpio_set_int env_all_ok (Gpio.mk GpioState.input 3 4) "both").2.2 =
      [FileOp.edgeWrite 4 "both"] ∧
    (gpio_set_int env_all_ok (Gpio.mk GpioState.input 3 4) "both").1 = 1 ∧
    (gpio_set_int env_all_ok (Gpio.mk GpioState.input 3 4) "both").2.1 =
      Gpio.mk GpioState.inputWithInterrupts 3 4 :=
  ⟨(C4_set_int_amended env_all_ok (Gpio.mk GpioState.input 3 4) "both").1,
   (C4_set_int_amended env_all_ok (Gpio.mk GpioState.input 3 4) "both").2.1.mpr rfl,
   (C4_set_int_amended env_all_ok (Gpio.mk GpioState.input 3 4) "both").2.2
     ((C4_set_int_amended env_all_ok (Gpio.mk GpioState.input 3 4) "both").2.1.mpr rfl)⟩

/-- C5: invalid direction rejection fails on the code.  Dispatching
`{init, 4, sideways}` with the pin already exported makes `gpio_open` return
the success code 1 after only the existence check, and the dispatcher
replies ok instead of any InvalidArgument error. -/
theorem C5_invalid_direction_at_failing_input :
    erlcmd_dispatch_msg env_all_ok (Msg.init 4 "sideways") gpio_init_pin =
      Outcome.ok ([Reply.okAtom], gpio_init_pin, [FileOp.accessCheck 4]) := by
  exact rfl

/-- C6: unknown-operation reply fails on the code.  Dispatching
`{call, 7, {foo}}` leaves the dispatcher's resp variable NULL, so the reply
sent is a `{port_reply, 7, NULL}` envelope with no inner result — no
UnknownOperation error reply is produced. -/
theorem C6_unknown_operation_at_failing_input :
    erlcmd_dispatch_msg env_all_ok (Msg.call 7 "foo" (CallArg.intArg 0)) gpio_init_pin =
      Outcome.ok ([Reply.portReply 7 none], gpio_init_pin, []) := by
  exact rfl

end GpioPort

namespace GpioPort

/-- Helper: whenever at least the 2-byte prefix is buffered and the declared
length plus 2 exceeds the buffer capacity, the framing step is fatal. -/
theorem erlcmd_decode_too_long (buffer : List Nat) (hlen : 2 ≤ buffer.length)
    (hbig : BUF_SIZE < declared_len buffer + 2) :
    erlcmd_decode buffer = DecodeResult.fatal "Message too long" := by
  unfold erlcmd_decode
  rw [if_neg (by omega), if_pos hbig]

/-- C7: for every buffered frame whose declared payload length plus the
2-byte prefix exceeds the 1024-byte capacity, `erlcmd_dispatch` terminates
fatally with "Message too long" — in every environment, for every payload
parser and pin state — and the fatal result carries no reply. -/
theorem C7_fatal_framing (env : Env) (parse : List Nat → Option Msg)
    (buffer : List Nat) (pin : Gpio)
    (hlen : 2 ≤ buffer.length) (hbig : BUF_SIZE < declared_len buffer + 2) :
    erlcmd_dispatch env parse buffer pin = DispatchResult.fatal "Message too long" := by
  unfold erlcmd_dispatch
  rw [erlcmd_decode_too_long buffer hlen hbig]

/-- C7 witness: the two-byte header [7, 208] declares payload length 2000;
dispatch is fatal without any reply. -/
theorem C7_fatal_framing_witness :
    2 ≤ ([7, 208] : List Nat).length ∧
    BUF_SIZE < declared_len [7, 208] + 2 ∧
    erlcmd_dispatch env_all_ok (fun _ => (none : Option Msg)) [7, 208] gpio_init_pin =
      DispatchResult.fatal "Message too long" :=
  ⟨by decide, by decide,
    C7_fatal_framing env_all_ok (fun _ => none) [7, 208] gpio_init_pin
      (by decide) (by decide)⟩

/-- C8: at the top of every `main` loop iteration, the pin's value-file
descriptor entry (watched for POLLPRI) is in the wait set handed to `poll`
if and only if the current state is InputWithInterrupts; since the wait set
is recomputed from the current state each iteration, leaving that state
removes the entry on the next iteration. -/
theorem C8_wait_set (pin : Gpio) :
    ((pin.fd, PollEvent.pollpri) ∈ poll_wait_set pin ↔
      pin.state = GpioState.inputWithInterrupts) := by
  unfold poll_wait_set poll_nfds poll_fdset
  cases h : pin.state <;> simp [h]

/-- C9: frame round-trip.  For every payload of length at most 1022 bytes,
decoding the encoding (2-byte big-endian length prefix plus payload) yields
the original payload with consumed length equal to the payload length
plus 2. -/
theorem C9_round_trip (payload : List Nat) (h : payload.length ≤ 1022) :
    erlcmd_decode (erlcmd_send_frame payload) =
      DecodeResult.message payload (payload.length + 2) := by
  have hlen : (erlcmd_send_frame payload).length = payload.length + 2 := by
    simp [erlcmd_send_frame]
  have hdecl : declared_len (erlcmd_send_frame payload) = payload.length := by
    simp only [declared_len, erlcmd_send_frame, List.headD_cons, List.drop_succ_cons,
      List.drop_zero]
    omega
  have hdrop : (erlcmd_send_frame payload).drop 2 = payload := by
    simp [erlcmd_send_frame]
  have h2 : ¬ (erlcmd_send_frame payload).length < 2 := by
    rw [hlen]; omega
  have h3 : ¬ BUF_SIZE < declared_len (erlcmd_send_frame payload) + 2 := by
    rw [hdecl]; simp only [BUF_SIZE]; omega
  have h4 : ¬ declared_len (erlcmd_send_frame payload) + 2 <
      (erlcmd_send_frame payload).length := by
    rw [hdecl, hlen]; omega
  unfold erlcmd_decode
  rw [if_neg h2, if_neg h3, if_neg h4, hdecl, hdrop, List.take_length]

/-- C9 witness: the round-trip applied to the payload [10, 20, 30]. -/
theorem C9_round_trip_witness :
    ([10, 20, 30] : List Nat).length ≤ 1022 ∧
    erlcmd_decode (erlcmd_send_frame [10, 20, 30]) =
      DecodeResult.message [10, 20, 30] (([10, 20, 30] : List Nat).length + 2) :=
  ⟨by decide, C9_round_trip [10, 20, 30] (by decide)⟩

/-- C10: `gpio_open` on a non-Closed pin releases the old resource (closing
its descriptor and unexporting it) before the direction string is examined,
so an open with an unrecognised direction leaves the freshly released record
(Closed, fd -1, pin -1); and whenever the export step does not fail (the
direction file exists or the export write succeeds) the call still returns
the success code 1. -/
theorem C10_open_releases_first (env : Env) (pin : Gpio) (pin_number : Int)
    (dir : String) (hst : pin.state ≠ GpioState.closed)
    (hin : dir ≠ "input") (hout : dir ≠ "output") :
    (gpio_open env pin pin_number dir).2.1 = gpio_init_pin ∧
    (env.directionExists = true ∨ env.exportWriteOk = true →
      (gpio_open env pin pin_number dir).1 = 1) := by
  cases hde : env.directionExists with
  | true =>
      simp [gpio_open, gpio_release, gpio_open_released, gpio_open_after_export,
        hst, hin, hout, hde]
  | false =>
      cases hw : env.exportWriteOk with
      | true =>
          simp [gpio_open, gpio_release, gpio_open_released, gpio_open_after_export,
            hst, hin, hout, hde, hw]
      | false =>
          simp [gpio_open, gpio_release, gpio_open_released, gpio_open_after_export,
            hst, hin, hout, hde, hw]

/-- C10 witness: opening pin 4 with the unrecognised direction "sideways"
while the resource is Output (fd 5, pin 9) yields the Closed record with
fd -1 and the return code 1. -/
theorem C10_open_releases_first_witness :
    (gpio_open env_all_ok (Gpio.mk GpioState.output 5 9) 4 "sideways").2.1 =
      gpio_init_pin ∧
    (gpio_open env_all_ok (Gpio.mk GpioState.output 5 9) 4 "sideways").1 = 1 :=
  ⟨(C10_open_releases_first env_all_ok (Gpio.mk GpioState.output 5 9) 4 "sideways"
      (by decide) (by decide) (by decide)).1,
   (C10_open_releases_first env_all_ok (Gpio.mk GpioState.output 5 9) 4 "sideways"
      (by decide) (by decide) (by decide)).2 (Or.inl rfl)⟩

end GpioPort
